import Mathlib

/-!
Verification of the Larus flight-sensor core algorithms against a shallow
embedding of the C++ sources (`NAV_Algorithms/AHRS.cpp`,
`NAV_Algorithms/flight_observer.cpp`, `Output_Formatter/NMEA_format.cpp`).

Machine floats are embedded as exact rationals (`ℚ`) or reals (`ℝ`);
machine integers as `ℤ`/`ℕ`.  Code whose body lives in headers that are
not part of the repository snapshot (vector/quaternion/filter classes,
tuning constants) enters either as an explicit parameter of the embedded
function or as a definition whose doc comment starts `Modelled from the
spec:`.
-/

set_option autoImplicit false

/-! ## Circling-state machine (`AHRS.cpp`, `update_circling_state`) -/

/-- The circling state enumeration of the AHRS (`circle_state_t`). -/
inductive circle_state_t where
  | STRAIGHT_FLIGHT
  | TRANSITION
  | CIRCLING
deriving DecidableEq, Repr

export circle_state_t (STRAIGHT_FLIGHT TRANSITION CIRCLING)

/-- Modelled from the spec: the tuning constants `CIRCLE_LIMIT`,
`HIGH_TURN_RATE`, `LOW_TURN_RATE` live in `NAV_tuning_parameters.h`, which is
not part of the repository snapshot; they enter as parameters.  The spec
describes `[LOW_TURN_RATE, HIGH_TURN_RATE]` as a hysteresis band, so theorems
assume `LOW_TURN_RATE ≤ HIGH_TURN_RATE`, and `0 < CIRCLE_LIMIT`. -/
structure CirclingParams where
  CIRCLE_LIMIT : ℕ
  HIGH_TURN_RATE : ℚ
  LOW_TURN_RATE : ℚ

/-- Counter part of `AHRS_type::update_circling_state` (AHRS.cpp:86-94):
the increment test reads the old counter, the decrement test reads the
possibly already incremented counter, exactly as the two successive `if`
statements do. -/
def update_circling_counter (P : CirclingParams) (circling_counter : ℕ)
    (turn_rate_abs : ℚ) : ℕ :=
  let c1 := if circling_counter < P.CIRCLE_LIMIT then
              (if turn_rate_abs > P.HIGH_TURN_RATE then circling_counter + 1
               else circling_counter)
            else circling_counter
  if c1 > 0 then (if turn_rate_abs < P.LOW_TURN_RATE then c1 - 1 else c1)
  else c1

/-- State decode of `AHRS_type::update_circling_state` (AHRS.cpp:96-101). -/
def circle_state_of (P : CirclingParams) (circling_counter : ℕ) :
    circle_state_t :=
  if circling_counter = 0 then STRAIGHT_FLIGHT
  else if circling_counter = P.CIRCLE_LIMIT then CIRCLING
  else TRANSITION

/-- The reference counter step of spec §4.1, written from the spec's words
(for the refinement comparison of the implementation against it):
increment iff `c < CIRCLE_LIMIT` and `t > HIGH_TURN_RATE`, else decrement
iff `c > 0` and `t < LOW_TURN_RATE`. -/
def spec_circling_counter (P : CirclingParams) (c : ℕ) (t : ℚ) : ℕ :=
  if c < P.CIRCLE_LIMIT ∧ t > P.HIGH_TURN_RATE then c + 1
  else if 0 < c ∧ t < P.LOW_TURN_RATE then c - 1
  else c

/-- **C2**: `update_circling_state` is exactly the reference step function of
spec §4.1: the counter is incremented iff `c < CIRCLE_LIMIT` and the filtered
turn-rate magnitude is strictly above `HIGH_TURN_RATE`, decremented iff
`c > 0` and the magnitude is strictly below `LOW_TURN_RATE`, it stays in
`[0, CIRCLE_LIMIT]`, and the resulting state is the pure function of the
resulting counter: `STRAIGHT_FLIGHT` iff `0`, `CIRCLING` iff `CIRCLE_LIMIT`,
`TRANSITION` otherwise. -/
theorem update_circling_state_correct (P : CirclingParams) (c : ℕ) (t : ℚ)
    (hband : P.LOW_TURN_RATE ≤ P.HIGH_TURN_RATE)
    (hlim : 0 < P.CIRCLE_LIMIT) (hc : c ≤ P.CIRCLE_LIMIT) :
    update_circling_counter P c t = spec_circling_counter P c t ∧
    update_circling_counter P c t ≤ P.CIRCLE_LIMIT ∧
    (circle_state_of P (update_circling_counter P c t) = STRAIGHT_FLIGHT ↔
      update_circling_counter P c t = 0) ∧
    (circle_state_of P (update_circling_counter P c t) = CIRCLING ↔
      update_circling_counter P c t = P.CIRCLE_LIMIT) ∧
    (circle_state_of P (update_circling_counter P c t) = TRANSITION ↔
      (update_circling_counter P c t ≠ 0 ∧
       update_circling_counter P c t ≠ P.CIRCLE_LIMIT)) := by
  have key : ¬ (P.HIGH_TURN_RATE < t ∧ t < P.LOW_TURN_RATE) := by
    rintro ⟨h1, h2⟩; linarith
  have hstep : update_circling_counter P c t = spec_circling_counter P c t := by
    unfold update_circling_counter spec_circling_counter
    by_cases hcl : c < P.CIRCLE_LIMIT <;> by_cases hH : P.HIGH_TURN_RATE < t <;>
      by_cases hL : t < P.LOW_TURN_RATE <;>
      first
        | (simp [hcl, hH, hL]; done)
        | exact absurd ⟨hH, hL⟩ key
  have hle : update_circling_counter P c t ≤ P.CIRCLE_LIMIT := by
    rw [hstep]; unfold spec_circling_counter
    split_ifs <;> omega
  refine ⟨hstep, hle, ?_, ?_, ?_⟩ <;>
    (unfold circle_state_of; split_ifs with h1 h2) <;>
    constructor <;> intro hx <;> first | omega | simp_all


/-- Witness for C2 at `CIRCLE_LIMIT = 4`, `HIGH = 2`, `LOW = 1`, `c = 2`,
`t = 3`. -/
theorem update_circling_state_correct_witness :
    ((1 : ℚ) ≤ 2 ∧ 0 < 4 ∧ 2 ≤ 4) ∧
    (update_circling_counter ⟨4, 2, 1⟩ 2 3 =
       spec_circling_counter ⟨4, 2, 1⟩ 2 3 ∧
     update_circling_counter ⟨4, 2, 1⟩ 2 3 ≤ 4 ∧
     (circle_state_of ⟨4, 2, 1⟩ (update_circling_counter ⟨4, 2, 1⟩ 2 3) =
        STRAIGHT_FLIGHT ↔ update_circling_counter ⟨4, 2, 1⟩ 2 3 = 0) ∧
     (circle_state_of ⟨4, 2, 1⟩ (update_circling_counter ⟨4, 2, 1⟩ 2 3) =
        CIRCLING ↔ update_circling_counter ⟨4, 2, 1⟩ 2 3 = 4) ∧
     (circle_state_of ⟨4, 2, 1⟩ (update_circling_counter ⟨4, 2, 1⟩ 2 3) =
        TRANSITION ↔
       (update_circling_counter ⟨4, 2, 1⟩ 2 3 ≠ 0 ∧
        update_circling_counter ⟨4, 2, 1⟩ 2 3 ≠ 4))) :=
  ⟨by norm_num,
   update_circling_state_correct ⟨4, 2, 1⟩ 2 3 (by norm_num) (by norm_num)
     (by norm_num)⟩

/-! ## AHRS tick skeleton: gyro integrator and magnetic calibration gating

`float3vector` lives in a header outside the repository snapshot; it is a
triple of floats, embedded as a triple of rationals.  The numeric value of
`gyro_correction` is computed through `float3matrix::reverse_map` (also
outside the snapshot), so it enters the mode steps as a parameter: the
claims verified here concern only *when* the integrator and the stored
calibration are touched, which is decided by the control flow present in
`AHRS.cpp`. -/

/-- A triple of (embedded) floats, as `float3vector`. -/
structure Vec3q where
  x : ℚ
  y : ℚ
  z : ℚ
deriving DecidableEq, Repr

/-- Componentwise vector addition (`float3vector::operator+=`). -/
def Vec3q.add (a b : Vec3q) : Vec3q := ⟨a.x + b.x, a.y + b.y, a.z + b.z⟩

/-- The AHRS state components the integrator/calibration claims are about:
the circling counter and state, the gyro integrator and the stored compass
calibration (of abstract type `α`, since `compass_calibration`'s class lives
outside the snapshot). -/
structure AHRS_state (α : Type) where
  circling_counter : ℕ
  circling_state : circle_state_t
  gyro_integrator : Vec3q
  compass_calibration : α

/-- `AHRS_type::update_circling_state` acting on the state record: updates
the counter and decodes the new circling state (AHRS.cpp:80-105). -/
def AHRS_update_circling {α : Type} (P : CirclingParams) (st : AHRS_state α)
    (turn_rate_abs : ℚ) : AHRS_state α :=
  let c := update_circling_counter P st.circling_counter turn_rate_abs
  { st with circling_counter := c, circling_state := circle_state_of P c }

/-- Skeleton of `AHRS_type::update_diff_GNSS` (AHRS.cpp:196-266) restricted
to the state components above: remember the old circling state, update the
circling state, add `gyro_correction` to the integrator only in
`STRAIGHT_FLIGHT` (line 252-253), and run the magnetic-calibration handler
only on an auto-calibration-enabled `CIRCLING → TRANSITION` edge
(line 264-265).  `handle` abstracts `handle_magnetic_calibration`. -/
def update_diff_GNSS_step {α : Type} (P : CirclingParams) (auto_calib : Bool)
    (handle : α → α) (st : AHRS_state α) (turn_rate_abs : ℚ)
    (gyro_correction : Vec3q) : AHRS_state α :=
  let old_circle_state := st.circling_state
  let st1 := AHRS_update_circling P st turn_rate_abs
  let st2 := if st1.circling_state = STRAIGHT_FLIGHT then
               { st1 with gyro_integrator :=
                   Vec3q.add st1.gyro_integrator gyro_correction }
             else st1
  if auto_calib = true ∧ old_circle_state = CIRCLING ∧
     st2.circling_state = TRANSITION then
    { st2 with compass_calibration := handle st2.compass_calibration }
  else st2

/-- Skeleton of `AHRS_type::update_compass` (AHRS.cpp:271-343): the switch
on the new circling state adds `gyro_correction` to the integrator in the
`STRAIGHT_FLIGHT` and `TRANSITION` cases (line 302-309) but not in the
`CIRCLING` case (line 312-327); the calibration handler is gated exactly as
in the D-GNSS mode (line 341-342). -/
def update_compass_step {α : Type} (P : CirclingParams) (auto_calib : Bool)
    (handle : α → α) (st : AHRS_state α) (turn_rate_abs : ℚ)
    (gyro_correction : Vec3q) : AHRS_state α :=
  let old_circle_state := st.circling_state
  let st1 := AHRS_update_circling P st turn_rate_abs
  let st2 := match st1.circling_state with
             | STRAIGHT_FLIGHT | TRANSITION =>
               { st1 with gyro_integrator :=
                   Vec3q.add st1.gyro_integrator gyro_correction }
             | CIRCLING => st1
  if auto_calib = true ∧ old_circle_state = CIRCLING ∧
     st2.circling_state = TRANSITION then
    { st2 with compass_calibration := handle st2.compass_calibration }
  else st2

/-- Skeleton of `AHRS_type::update_ACC_only` (AHRS.cpp:349-378): the
circling state is updated (line 360) and the integrator is advanced
unconditionally (line 373); no calibration handling at all. -/
def update_ACC_only_step {α : Type} (P : CirclingParams) (st : AHRS_state α)
    (turn_rate_abs : ℚ) (gyro_correction : Vec3q) : AHRS_state α :=
  let st1 := AHRS_update_circling P st turn_rate_abs
  { st1 with gyro_integrator :=
      Vec3q.add st1.gyro_integrator gyro_correction }


/-- **C3, counterexample**: in the magnetometer mode the gyro integrator is
NOT advanced on every tick: with the tick ending in the `CIRCLING` state and
a non-zero `gyro_correction`, `update_compass` leaves the integrator
untouched (the `CIRCLING` case of the switch at AHRS.cpp:312-327 has no
`gyro_integrator +=`). -/
theorem update_compass_integrator_counterexample :
    (update_compass_step (α := Unit) ⟨1, 1, 1/2⟩ false id
        ⟨1, CIRCLING, ⟨0, 0, 0⟩, ()⟩ 2 ⟨1, 0, 0⟩).gyro_integrator
      = ⟨0, 0, 0⟩ ∧
    (⟨0, 0, 0⟩ : Vec3q) ≠
      Vec3q.add ⟨0, 0, 0⟩ ⟨1, 0, 0⟩ := by
  constructor
  · norm_num [update_compass_step, AHRS_update_circling,
      update_circling_counter, circle_state_of]
  · simp [Vec3q.add]

/-- **C3, amended**: per-mode gyro-integrator advance rule.  In the D-GNSS
mode the integrator changes only when the tick's (freshly updated) circling
state is `STRAIGHT_FLIGHT`, and is then advanced by `gyro_correction`; in
the magnetometer mode it changes only when the new state is not `CIRCLING`
(i.e. `STRAIGHT_FLIGHT` or `TRANSITION`), and is then advanced; in the
acceleration-only mode it is advanced on every tick. -/
theorem gyro_integrator_gating {α : Type} (P : CirclingParams)
    (auto_calib : Bool) (handle : α → α) (st : AHRS_state α) (t : ℚ)
    (corr : Vec3q) :
    ((update_diff_GNSS_step P auto_calib handle st t corr).gyro_integrator ≠
        st.gyro_integrator →
      (AHRS_update_circling P st t).circling_state = STRAIGHT_FLIGHT) ∧
    ((AHRS_update_circling P st t).circling_state = STRAIGHT_FLIGHT →
      (update_diff_GNSS_step P auto_calib handle st t corr).gyro_integrator =
        Vec3q.add st.gyro_integrator corr) ∧
    ((update_compass_step P auto_calib handle st t corr).gyro_integrator ≠
        st.gyro_integrator →
      (AHRS_update_circling P st t).circling_state ≠ CIRCLING) ∧
    ((AHRS_update_circling P st t).circling_state ≠ CIRCLING →
      (update_compass_step P auto_calib handle st t corr).gyro_integrator =
        Vec3q.add st.gyro_integrator corr) ∧
    (update_ACC_only_step P st t corr).gyro_integrator =
      Vec3q.add st.gyro_integrator corr := by
  unfold update_diff_GNSS_step update_compass_step update_ACC_only_step
  have hgi : (AHRS_update_circling P st t).gyro_integrator =
      st.gyro_integrator := rfl
  rcases h : (AHRS_update_circling P st t).circling_state <;>
    simp [h, hgi, apply_ite AHRS_state.gyro_integrator]

/-- Witness for C3 (amended) with the tick ending in `STRAIGHT_FLIGHT`. -/
theorem gyro_integrator_gating_witness :
    (update_diff_GNSS_step (α := Unit) ⟨2, 1, 1/2⟩ false id
        ⟨0, STRAIGHT_FLIGHT, ⟨0, 0, 0⟩, ()⟩ 0 ⟨1, 2, 3⟩).gyro_integrator =
      Vec3q.add ⟨0, 0, 0⟩ ⟨1, 2, 3⟩ ∧
    (update_compass_step (α := Unit) ⟨2, 1, 1/2⟩ false id
        ⟨0, STRAIGHT_FLIGHT, ⟨0, 0, 0⟩, ()⟩ 0 ⟨1, 2, 3⟩).gyro_integrator =
      Vec3q.add ⟨0, 0, 0⟩ ⟨1, 2, 3⟩ ∧
    (update_ACC_only_step (α := Unit) ⟨2, 1, 1/2⟩
        ⟨0, STRAIGHT_FLIGHT, ⟨0, 0, 0⟩, ()⟩ 0 ⟨1, 2, 3⟩).gyro_integrator =
      Vec3q.add ⟨0, 0, 0⟩ ⟨1, 2, 3⟩ := by
  have h := gyro_integrator_gating (α := Unit) ⟨2, 1, 1/2⟩ false id
    ⟨0, STRAIGHT_FLIGHT, ⟨0, 0, 0⟩, ()⟩ 0 ⟨1, 2, 3⟩
  have hs : (AHRS_update_circling (α := Unit) ⟨2, 1, 1/2⟩
      ⟨0, STRAIGHT_FLIGHT, ⟨0, 0, 0⟩, ()⟩ 0).circling_state =
      STRAIGHT_FLIGHT := by
    norm_num [AHRS_update_circling, update_circling_counter, circle_state_of]
  exact ⟨h.2.1 hs, h.2.2.2.1 (by rw [hs]; simp), h.2.2.2.2⟩

/-- **C4**: in every fusion mode the stored magnetometer calibration is
touched only on a tick whose circling state before the update was
`CIRCLING`, whose state after the update is `TRANSITION`, and with automatic
magnetic calibration enabled; on such a tick (in the two modes that
calibrate at all) the handler is applied, and on every other tick — in all
three modes — the calibration is returned unchanged. -/
theorem magnetic_calibration_gating {α : Type} (P : CirclingParams)
    (auto_calib : Bool) (handle : α → α) (st : AHRS_state α) (t : ℚ)
    (corr : Vec3q) :
    (¬ (auto_calib = true ∧ st.circling_state = CIRCLING ∧
        (AHRS_update_circling P st t).circling_state = TRANSITION) →
      (update_diff_GNSS_step P auto_calib handle st t corr).compass_calibration
          = st.compass_calibration ∧
      (update_compass_step P auto_calib handle st t corr).compass_calibration
          = st.compass_calibration) ∧
    ((auto_calib = true ∧ st.circling_state = CIRCLING ∧
        (AHRS_update_circling P st t).circling_state = TRANSITION) →
      (update_diff_GNSS_step P auto_calib handle st t corr).compass_calibration
          = handle st.compass_calibration ∧
      (update_compass_step P auto_calib handle st t corr).compass_calibration
          = handle st.compass_calibration) ∧
    (update_ACC_only_step P st t corr).compass_calibration =
      st.compass_calibration := by
  unfold update_diff_GNSS_step update_compass_step update_ACC_only_step
  rcases h : (AHRS_update_circling P st t).circling_state <;>
    simp [h, apply_ite AHRS_state.compass_calibration] <;>
    rcases hs : st.circling_state <;>
    rcases auto_calib <;>
    simp_all [AHRS_update_circling]

/-- Witness for C4: a `CIRCLING → TRANSITION` edge with auto-calibration on
applies the handler; the same tick with auto-calibration off, and the
acceleration-only mode, leave the calibration unchanged. -/
theorem magnetic_calibration_gating_witness :
    (update_diff_GNSS_step (α := ℚ) ⟨2, 1, 1/2⟩ true (fun c => c + 1)
        ⟨2, CIRCLING, ⟨0, 0, 0⟩, 0⟩ 0 ⟨0, 0, 0⟩).compass_calibration = 1 ∧
    (update_compass_step (α := ℚ) ⟨2, 1, 1/2⟩ false (fun c => c + 1)
        ⟨2, CIRCLING, ⟨0, 0, 0⟩, 0⟩ 0 ⟨0, 0, 0⟩).compass_calibration = 0 ∧
    (update_ACC_only_step (α := ℚ) ⟨2, 1, 1/2⟩
        ⟨2, CIRCLING, ⟨0, 0, 0⟩, 0⟩ 0 ⟨0, 0, 0⟩).compass_calibration = 0 := by
  have h1 := magnetic_calibration_gating (α := ℚ) ⟨2, 1, 1/2⟩ true
    (fun c => c + 1) ⟨2, CIRCLING, ⟨0, 0, 0⟩, 0⟩ 0 ⟨0, 0, 0⟩
  have h2 := magnetic_calibration_gating (α := ℚ) ⟨2, 1, 1/2⟩ false
    (fun c => c + 1) ⟨2, CIRCLING, ⟨0, 0, 0⟩, 0⟩ 0 ⟨0, 0, 0⟩
  have ht : (AHRS_update_circling (α := ℚ) ⟨2, 1, 1/2⟩
      ⟨2, CIRCLING, ⟨0, 0, 0⟩, 0⟩ 0).circling_state = TRANSITION := by
    norm_num [AHRS_update_circling, update_circling_counter, circle_state_of]
  refine ⟨?_, ?_, h2.2.2⟩
  · have := h1.2.1 ⟨rfl, rfl, ht⟩
    simpa using this.1
  · have := (h2.1 (by simp)).2
    simpa using this

/-! ## Flight observer (`flight_observer.cpp`, `update_every_10ms`)

The Kalman filters, differentiators, averagers, the decimator and the
fusion blender are objects of classes declared in headers outside the
repository snapshot; `update_every_10ms` only calls their `update`/`respond`
members and reads their state accessors.  Their state spaces are embedded
per spec §4.5/§4.6 (3-state filters) or as a single scalar/vector, and
their transition functions enter as parameters (`filter_ops`), so every
theorem below holds for every implementation of those filters. -/

/-- `#define ONE_DIV_BY_GRAVITY_TIMES_2 0.0509684f` (flight_observer.cpp:29). -/
def ONE_DIV_BY_GRAVITY_TIMES_2 : ℚ := 509684 / 10000000

/-- `#define RECIP_GRAVITY 0.1094f` (flight_observer.cpp:30). -/
def RECIP_GRAVITY : ℚ := 1094 / 10000

/-- State of a `KalmanVario_PVA_t` filter: altitude, vario (vertical
velocity) and observed acceleration (spec §4.5). -/
structure KalmanPVA where
  altitude_est : ℚ
  vario_est : ℚ
  accel_observed_est : ℚ
deriving DecidableEq, Repr

/-- State of a `Kalman_V_A_Aoff_observer_t` filter: velocity, acceleration
and acceleration offset (spec §4.6). -/
structure KalmanVAA where
  velocity_est : ℚ
  accel_est : ℚ
  accel_offset_est : ℚ
deriving DecidableEq, Repr

/-- The member-function parameters of the flight observer: each filter
object's `update`/`respond`, returning the new filter state and (where the
code uses it) the returned scalar. -/
structure filter_ops where
  KalmanVario_pressure_update : KalmanPVA → ℚ → ℚ → KalmanPVA × ℚ
  KalmanVario_GNSS_update : KalmanPVA → ℚ → ℚ → ℚ → KalmanPVA × ℚ
  Kalman_v_a_update : KalmanVAA → ℚ → ℚ → KalmanVAA
  decimator_respond : Vec3q → Vec3q → Vec3q
  diff_respond : ℚ → ℚ → ℚ × ℚ
  avg_respond : ℚ → ℚ → ℚ
  fusion_respond : ℚ → ℚ → ℚ → ℚ × ℚ

/-- The fields of `flight_observer_t` read or written by
`update_every_10ms`. -/
structure flight_observer_t where
  KalmanVario_pressure : KalmanPVA
  KalmanVario_GNSS : KalmanPVA
  Kalman_v_a_observer_N : KalmanVAA
  Kalman_v_a_observer_E : KalmanVAA
  windspeed_decimator_100Hz_10Hz : Vec3q
  kinetic_energy_differentiator : ℚ
  specific_energy_differentiator : ℚ
  vario_averager_pressure : ℚ
  vario_averager_GNSS : ℚ
  GNSS_INS_speedcomp_fusioner : ℚ
  vario_uncompensated_pressure : ℚ
  vario_uncompensated_GNSS : ℚ
  speed_compensation_IAS : ℚ
  speed_compensation_GNSS : ℚ
  speed_compensation_INS_GNSS_1 : ℚ
  speed_compensation_kalman_2 : ℚ
  speed_compensation_energy_3 : ℚ
  specific_energy : ℚ
deriving Repr

/-- Componentwise vector subtraction (`float3vector::operator-`). -/
def Vec3q.sub (a b : Vec3q) : Vec3q := ⟨a.x - b.x, a.y - b.y, a.z - b.z⟩

/-- Vector scaling (`float3vector::operator* (float)`). -/
def Vec3q.scale (k : ℚ) (a : Vec3q) : Vec3q := ⟨k * a.x, k * a.y, k * a.z⟩

/-- Dot product (`float3vector::operator* (float3vector)`). -/
def Vec3q.dot (a b : Vec3q) : ℚ := a.x * b.x + a.y * b.y + a.z * b.z

/-- `SQR(x) = x·x` (from `embedded_math.h`).  Throughout, the NED component
indices map as `NORTH` = `x`, `EAST` = `y`, `DOWN` = `z`. -/
def SQR (a : ℚ) : ℚ := a * a

/-- `flight_observer_t::update_every_10ms` (flight_observer.cpp:33-102),
transcribed statement by statement; `vertical_energy_tuning_factor` is a
configuration value, passed as a parameter.  `circle_state` and
`gnss_acceleration` are parameters of the C++ function that its body never
reads; they are kept for signature fidelity. -/
def update_every_10ms (ops : filter_ops)
    (gnss_velocity _gnss_acceleration ahrs_acceleration heading_vector : Vec3q)
    (GNSS_negative_altitude pressure_altitude TAS IAS : ℚ)
    (_circle_state : circle_state_t)
    (wind_average : Vec3q)
    (GNSS_fix_avaliable : Bool)
    (vertical_energy_tuning_factor : ℚ)
    (st : flight_observer_t) : flight_observer_t :=
  let r1 := ops.KalmanVario_pressure_update st.KalmanVario_pressure
              pressure_altitude ahrs_acceleration.z
  let vario_uncompensated_pressure := r1.2
  let r2 := ops.diff_respond st.kinetic_energy_differentiator
              (IAS * IAS * ONE_DIV_BY_GRAVITY_TIMES_2)
  let speed_compensation_IAS := r2.2
  let vario_averager_pressure := ops.avg_respond st.vario_averager_pressure
              (speed_compensation_IAS - vario_uncompensated_pressure)
  if ! GNSS_fix_avaliable then
    -- workaround for no GNSS fix: maintain GNSS vario with pressure data
    { st with
      KalmanVario_pressure := r1.1
      vario_uncompensated_pressure := vario_uncompensated_pressure
      kinetic_energy_differentiator := r2.1
      speed_compensation_IAS := speed_compensation_IAS
      vario_averager_pressure := vario_averager_pressure
      vario_uncompensated_GNSS := vario_uncompensated_pressure
      speed_compensation_GNSS := speed_compensation_IAS
      vario_averager_GNSS := ops.avg_respond st.vario_averager_GNSS
        (speed_compensation_IAS - vario_uncompensated_pressure) }
  else
    let air_velocity0 := Vec3q.sub gnss_velocity
                           (Vec3q.scale TAS heading_vector)
    let windspeed_decimator := ops.decimator_respond
                                 st.windspeed_decimator_100Hz_10Hz air_velocity0
    let r3 := ops.KalmanVario_GNSS_update st.KalmanVario_GNSS
                GNSS_negative_altitude gnss_velocity.z ahrs_acceleration.z
    let KalmanVario_GNSS := r3.1
    let vario_uncompensated_GNSS := - r3.2
    let air_velocity : Vec3q :=
      { x := gnss_velocity.x - wind_average.x
        y := gnss_velocity.y - wind_average.y
        z := KalmanVario_GNSS.vario_est }
    let acceleration : Vec3q :=
      { ahrs_acceleration with z := KalmanVario_GNSS.accel_observed_est }
    let speed_compensation_INS_GNSS_1 :=
      Vec3q.dot air_velocity acceleration * RECIP_GRAVITY
    let Kalman_v_a_observer_N := ops.Kalman_v_a_update st.Kalman_v_a_observer_N
      (gnss_velocity.x - wind_average.x) ahrs_acceleration.x
    let Kalman_v_a_observer_E := ops.Kalman_v_a_update st.Kalman_v_a_observer_E
      (gnss_velocity.y - wind_average.y) ahrs_acceleration.y
    let speed_compensation_kalman_2 :=
      (Kalman_v_a_observer_N.velocity_est * Kalman_v_a_observer_N.accel_est +
       Kalman_v_a_observer_E.velocity_est * Kalman_v_a_observer_E.accel_est +
       KalmanVario_GNSS.vario_est * KalmanVario_GNSS.accel_observed_est *
         vertical_energy_tuning_factor) * RECIP_GRAVITY
    let specific_energy :=
      (SQR (gnss_velocity.x - wind_average.x) +
       SQR (gnss_velocity.y - wind_average.y) +
       SQR gnss_velocity.z * vertical_energy_tuning_factor) *
        ONE_DIV_BY_GRAVITY_TIMES_2
    let r4 := ops.diff_respond st.specific_energy_differentiator specific_energy
    let speed_compensation_energy_3 := r4.2
    let r5 := ops.fusion_respond st.GNSS_INS_speedcomp_fusioner
      (1/2 * (speed_compensation_INS_GNSS_1 + speed_compensation_kalman_2))
      speed_compensation_energy_3
    let speed_compensation_GNSS := r5.2
    { st with
      KalmanVario_pressure := r1.1
      vario_uncompensated_pressure := vario_uncompensated_pressure
      kinetic_energy_differentiator := r2.1
      speed_compensation_IAS := speed_compensation_IAS
      vario_averager_pressure := vario_averager_pressure
      windspeed_decimator_100Hz_10Hz := windspeed_decimator
      KalmanVario_GNSS := KalmanVario_GNSS
      vario_uncompensated_GNSS := vario_uncompensated_GNSS
      speed_compensation_INS_GNSS_1 := speed_compensation_INS_GNSS_1
      Kalman_v_a_observer_N := Kalman_v_a_observer_N
      Kalman_v_a_observer_E := Kalman_v_a_observer_E
      speed_compensation_kalman_2 := speed_compensation_kalman_2
      specific_energy := specific_energy
      specific_energy_differentiator := r4.1
      speed_compensation_energy_3 := speed_compensation_energy_3
      GNSS_INS_speedcomp_fusioner := r5.1
      speed_compensation_GNSS := speed_compensation_GNSS
      vario_averager_GNSS := ops.avg_respond st.vario_averager_GNSS
        (vario_uncompensated_GNSS + speed_compensation_GNSS) }

/-- The zero vector, used as a concrete input. -/
def v0 : Vec3q := ⟨0, 0, 0⟩

/-- A concrete instantiation of the filter member functions (state kept,
zero outputs), used to evaluate the observer on concrete inputs. -/
def trivial_ops : filter_ops where
  KalmanVario_pressure_update := fun s _ _ => (s, 0)
  KalmanVario_GNSS_update := fun s _ _ _ => (s, 0)
  Kalman_v_a_update := fun s _ _ => s
  decimator_respond := fun s _ => s
  diff_respond := fun s _ => (s, 0)
  avg_respond := fun s _ => s
  fusion_respond := fun s _ _ => (s, 0)

/-- A concrete all-zero observer state. -/
def fo0 : flight_observer_t :=
  ⟨⟨0, 0, 0⟩, ⟨0, 0, 0⟩, ⟨0, 0, 0⟩, ⟨0, 0, 0⟩, v0,
   0, 0, 0, 0, 0, 0, 0, 0, 0, 0, 0, 0, 0⟩

/-- **C6**: with no GNSS fix, `update_every_10ms` mirrors the pressure path
into the GNSS-tagged outputs exactly (plain assignments, hence bit-for-bit
in the C code), and neither the GNSS vario Kalman filter, nor the two
horizontal Kalman filters, nor the wind decimator state are touched. -/
theorem update_no_fix_mirrors_pressure (ops : filter_ops)
    (gnss_velocity gnss_acceleration ahrs_acceleration heading_vector : Vec3q)
    (GNSS_negative_altitude pressure_altitude TAS IAS : ℚ)
    (circle_state : circle_state_t) (wind_average : Vec3q)
    (GNSS_fix_avaliable : Bool) (vertical_energy_tuning_factor : ℚ)
    (st : flight_observer_t)
    (hfix : GNSS_fix_avaliable = false) :
    (update_every_10ms ops gnss_velocity gnss_acceleration ahrs_acceleration
        heading_vector GNSS_negative_altitude pressure_altitude TAS IAS
        circle_state wind_average GNSS_fix_avaliable
        vertical_energy_tuning_factor st).vario_uncompensated_GNSS =
      (update_every_10ms ops gnss_velocity gnss_acceleration ahrs_acceleration
        heading_vector GNSS_negative_altitude pressure_altitude TAS IAS
        circle_state wind_average GNSS_fix_avaliable
        vertical_energy_tuning_factor st).vario_uncompensated_pressure ∧
    (update_every_10ms ops gnss_velocity gnss_acceleration ahrs_acceleration
        heading_vector GNSS_negative_altitude pressure_altitude TAS IAS
        circle_state wind_average GNSS_fix_avaliable
        vertical_energy_tuning_factor st).speed_compensation_GNSS =
      (update_every_10ms ops gnss_velocity gnss_acceleration ahrs_acceleration
        heading_vector GNSS_negative_altitude pressure_altitude TAS IAS
        circle_state wind_average GNSS_fix_avaliable
        vertical_energy_tuning_factor st).speed_compensation_IAS ∧
    (update_every_10ms ops gnss_velocity gnss_acceleration ahrs_acceleration
        heading_vector GNSS_negative_altitude pressure_altitude TAS IAS
        circle_state wind_average GNSS_fix_avaliable
        vertical_energy_tuning_factor st).KalmanVario_GNSS =
      st.KalmanVario_GNSS ∧
    (update_every_10ms ops gnss_velocity gnss_acceleration ahrs_acceleration
        heading_vector GNSS_negative_altitude pressure_altitude TAS IAS
        circle_state wind_average GNSS_fix_avaliable
        vertical_energy_tuning_factor st).Kalman_v_a_observer_N =
      st.Kalman_v_a_observer_N ∧
    (update_every_10ms ops gnss_velocity gnss_acceleration ahrs_acceleration
        heading_vector GNSS_negative_altitude pressure_altitude TAS IAS
        circle_state wind_average GNSS_fix_avaliable
        vertical_energy_tuning_factor st).Kalman_v_a_observer_E =
      st.Kalman_v_a_observer_E ∧
    (update_every_10ms ops gnss_velocity gnss_acceleration ahrs_acceleration
        heading_vector GNSS_negative_altitude pressure_altitude TAS IAS
        circle_state wind_average GNSS_fix_avaliable
        vertical_energy_tuning_factor st).windspeed_decimator_100Hz_10Hz =
      st.windspeed_decimator_100Hz_10Hz := by
  subst hfix
  exact ⟨rfl, rfl, rfl, rfl, rfl, rfl⟩

/-- Witness for C6 on concrete inputs (trivial filter instantiation, all
inputs zero, no fix). -/
theorem update_no_fix_mirrors_pressure_witness :
    (update_every_10ms trivial_ops v0 v0 v0 v0 0 0 0 0 STRAIGHT_FLIGHT v0
        false 1 fo0).vario_uncompensated_GNSS =
      (update_every_10ms trivial_ops v0 v0 v0 v0 0 0 0 0 STRAIGHT_FLIGHT v0
        false 1 fo0).vario_uncompensated_pressure ∧
    (update_every_10ms trivial_ops v0 v0 v0 v0 0 0 0 0 STRAIGHT_FLIGHT v0
        false 1 fo0).speed_compensation_GNSS =
      (update_every_10ms trivial_ops v0 v0 v0 v0 0 0 0 0 STRAIGHT_FLIGHT v0
        false 1 fo0).speed_compensation_IAS ∧
    (update_every_10ms trivial_ops v0 v0 v0 v0 0 0 0 0 STRAIGHT_FLIGHT v0
        false 1 fo0).KalmanVario_GNSS = fo0.KalmanVario_GNSS ∧
    (update_every_10ms trivial_ops v0 v0 v0 v0 0 0 0 0 STRAIGHT_FLIGHT v0
        false 1 fo0).Kalman_v_a_observer_N = fo0.Kalman_v_a_observer_N ∧
    (update_every_10ms trivial_ops v0 v0 v0 v0 0 0 0 0 STRAIGHT_FLIGHT v0
        false 1 fo0).Kalman_v_a_observer_E = fo0.Kalman_v_a_observer_E ∧
    (update_every_10ms trivial_ops v0 v0 v0 v0 0 0 0 0 STRAIGHT_FLIGHT v0
        false 1 fo0).windspeed_decimator_100Hz_10Hz =
      fo0.windspeed_decimator_100Hz_10Hz :=
  update_no_fix_mirrors_pressure trivial_ops v0 v0 v0 v0 0 0 0 0
    STRAIGHT_FLIGHT v0 false 1 fo0 rfl

/-- **C7, counterexample**: the exposed `specific_energy` is NOT the claimed
function of the horizontal-Kalman state velocities.  With the filters
instantiated so that both horizontal Kalman states stay at zero velocity
while the raw air-relative north velocity is 1 m/s, the code's
`specific_energy` is `1 · ONE_DIV_BY_GRAVITY_TIMES_2 ≠ 0`, but the claimed
formula over the Kalman velocities evaluates to 0. -/
theorem specific_energy_kalman_velocity_counterexample :
    (update_every_10ms trivial_ops ⟨1, 0, 0⟩ v0 v0 v0 0 0 0 0 STRAIGHT_FLIGHT
        v0 true 1 fo0).specific_energy = ONE_DIV_BY_GRAVITY_TIMES_2 ∧
    (update_every_10ms trivial_ops ⟨1, 0, 0⟩ v0 v0 v0 0 0 0 0 STRAIGHT_FLIGHT
        v0 true 1 fo0).Kalman_v_a_observer_N.velocity_est = 0 ∧
    (update_every_10ms trivial_ops ⟨1, 0, 0⟩ v0 v0 v0 0 0 0 0 STRAIGHT_FLIGHT
        v0 true 1 fo0).Kalman_v_a_observer_E.velocity_est = 0 ∧
    (update_every_10ms trivial_ops ⟨1, 0, 0⟩ v0 v0 v0 0 0 0 0 STRAIGHT_FLIGHT
        v0 true 1 fo0).specific_energy ≠
      (SQR (update_every_10ms trivial_ops ⟨1, 0, 0⟩ v0 v0 v0 0 0 0 0
          STRAIGHT_FLIGHT v0 true 1 fo0).Kalman_v_a_observer_N.velocity_est +
       SQR (update_every_10ms trivial_ops ⟨1, 0, 0⟩ v0 v0 v0 0 0 0 0
          STRAIGHT_FLIGHT v0 true 1 fo0).Kalman_v_a_observer_E.velocity_est +
       SQR (Vec3q.z ⟨1, 0, 0⟩) * 1) * ONE_DIV_BY_GRAVITY_TIMES_2 := by
  refine ⟨?_, rfl, rfl, ?_⟩ <;>
    norm_num [update_every_10ms, trivial_ops, fo0, v0, SQR,
      ONE_DIV_BY_GRAVITY_TIMES_2]

/-- **C7, amended**: with a GNSS fix, the exposed `specific_energy` equals
`(SQR(v_N − w_N) + SQR(v_E − w_E) + SQR(v_D) · k_v) ·
ONE_DIV_BY_GRAVITY_TIMES_2`, where `v` is the raw GNSS velocity and `w` the
wind average — i.e. the raw air-relative horizontal velocities that are fed
INTO the horizontal Kalman filters, not the Kalman state velocities. -/
theorem specific_energy_raw_air_velocity (ops : filter_ops)
    (gnss_velocity gnss_acceleration ahrs_acceleration heading_vector : Vec3q)
    (GNSS_negative_altitude pressure_altitude TAS IAS : ℚ)
    (circle_state : circle_state_t) (wind_average : Vec3q)
    (GNSS_fix_avaliable : Bool) (vertical_energy_tuning_factor : ℚ)
    (st : flight_observer_t)
    (hfix : GNSS_fix_avaliable = true) :
    (update_every_10ms ops gnss_velocity gnss_acceleration ahrs_acceleration
        heading_vector GNSS_negative_altitude pressure_altitude TAS IAS
        circle_state wind_average GNSS_fix_avaliable
        vertical_energy_tuning_factor st).specific_energy =
      (SQR (gnss_velocity.x - wind_average.x) +
       SQR (gnss_velocity.y - wind_average.y) +
       SQR gnss_velocity.z * vertical_energy_tuning_factor) *
        ONE_DIV_BY_GRAVITY_TIMES_2 := by
  subst hfix
  rfl

/-- Witness for C7 (amended) on concrete inputs. -/
theorem specific_energy_raw_air_velocity_witness :
    (update_every_10ms trivial_ops ⟨3, 4, 5⟩ v0 v0 v0 0 0 0 0 STRAIGHT_FLIGHT
        ⟨1, 1, 1⟩ true 2 fo0).specific_energy =
      (SQR ((3 : ℚ) - 1) + SQR ((4 : ℚ) - 1) + SQR (5 : ℚ) * 2) *
        ONE_DIV_BY_GRAVITY_TIMES_2 :=
  specific_energy_raw_air_velocity trivial_ops ⟨3, 4, 5⟩ v0 v0 v0 0 0 0 0
    STRAIGHT_FLIGHT ⟨1, 1, 1⟩ true 2 fo0 rfl

/-! ## NMEA formatter (`NMEA_format.cpp`)

C strings are embedded as lists of byte values (the bytes before the NUL
terminator); `'$' = 36`, `'*' = 42`, `'-' = 45`, `'.' = 46`, `'0' = 48`,
`'\r' = 13`, `'\n' = 10`. -/

/-- `hex4` / the `HEX` table lookup (NMEA_format.cpp:33,401-404):
`HEX[d]` is `'0' + d` for `d ≤ 9` and `'A' + (d − 10)` otherwise. -/
def hex4 (data : ℕ) : ℕ := if data < 10 then 48 + data else 55 + data

/-- The running 8-bit XOR (`checksum ^= *p`) over a byte list. -/
def nmea_xor (chk : ℕ) (body : List ℕ) : ℕ :=
  body.foldl (fun a b => a ^^^ b) chk

/-- Scan loop of `NMEA_checksum` (NMEA_format.cpp:412-415): XOR bytes until
NUL or `'*'`; at NUL the trailing `p[0]=='*'` test fails; at `'*'` the two
hex digits must follow and `p[3]` must be NUL, i.e. the string must end
right after them. -/
def NMEA_checksum_aux : ℕ → List ℕ → Bool
  | _, [] => false
  | chk, c :: t =>
    if c = 0 then false
    else if c = 42 then t == [hex4 (chk / 16), hex4 (chk % 16)]
    else NMEA_checksum_aux (chk ^^^ c) t

/-- `NMEA_checksum` (NMEA_format.cpp:407-416). -/
def NMEA_checksum (line : List ℕ) : Bool :=
  match line with
  | [] => false
  | c :: rest => if c = 36 then NMEA_checksum_aux 0 rest else false

/-- `NMEA_append_tail` (NMEA_format.cpp:419-433): requires a leading `'$'`
(else the C code returns a null pointer, modelled as `none`), XORs the bytes
up to the first NUL or `'*'`, and writes `'*'`, the two hex checksum digits,
`"\r\n"` and the terminating NUL at the stop position (discarding whatever
followed it). -/
def NMEA_append_tail (s : List ℕ) : Option (List ℕ) :=
  match s with
  | [] => none
  | c :: body =>
    if c = 36 then
      let scanned := body.takeWhile (fun b => decide (b ≠ 0 ∧ b ≠ 42))
      let chk := nmea_xor 0 scanned
      some (36 :: scanned ++ [42, hex4 (chk / 16), hex4 (chk % 16), 13, 10])
    else none

/-- A byte list with no NUL and no `'*'` is scanned whole. -/
theorem takeWhile_no_stop (body : List ℕ)
    (h : ∀ b ∈ body, b ≠ 0 ∧ b ≠ 42) :
    body.takeWhile (fun c => decide (c ≠ 0 ∧ c ≠ 42)) = body := by
  induction body with
  | nil => rfl
  | cons b bs ih =>
    have hb := h b (List.mem_cons_self b bs)
    have ht : List.takeWhile (fun c => decide (c ≠ 0 ∧ c ≠ 42)) bs = bs :=
      ih fun x hx => h x (List.mem_cons_of_mem b hx)
    simp [List.takeWhile, hb.1, hb.2, ht]
    exact fun x hx => h x (List.mem_cons_of_mem b hx)

/-- Scanning `body ++ '*' :: rest` with no NUL/`'*'` in `body` reaches the
`'*'` with the XOR of `body` accumulated, and then compares `rest` with the
two hex digits (the NUL requirement making the comparison exact). -/
theorem NMEA_checksum_aux_append (body : List ℕ) (rest : List ℕ) (chk : ℕ)
    (h : ∀ b ∈ body, b ≠ 0 ∧ b ≠ 42) :
    NMEA_checksum_aux chk (body ++ 42 :: rest) =
      (rest == [hex4 (nmea_xor chk body / 16),
                hex4 (nmea_xor chk body % 16)]) := by
  induction body generalizing chk with
  | nil => simp [NMEA_checksum_aux, nmea_xor]
  | cons b bs ih =>
    have hb := h b (List.mem_cons_self b bs)
    have hrec := ih (chk ^^^ b) fun x hx => h x (List.mem_cons_of_mem b hx)
    simpa [NMEA_checksum_aux, nmea_xor, hb.1, hb.2] using hrec

/-- **C8, counterexample**: the round trip fails on emitted sentences.  For
the buffer `"$A"`, `NMEA_append_tail` emits `"$A*41\r\n"`, but
`NMEA_checksum` of that sentence is `false`: its final test requires the
byte after the two checksum digits to be NUL (`p[3] == 0`,
NMEA_format.cpp:415), while the emitted sentence continues with `'\r'`. -/
theorem NMEA_append_tail_roundtrip_counterexample :
    NMEA_append_tail [36, 65] = some [36, 65, 42, 52, 49, 13, 10] ∧
    NMEA_checksum [36, 65, 42, 52, 49, 13, 10] = false := by
  decide

/-- **C8, amended**: for every buffer beginning with `'$'` whose body has no
`'*'` and no NUL, `NMEA_append_tail` appends `'*'`, the 8-bit XOR of the
bytes strictly between `'$'` and `'*'` as two uppercase hex digits, and
`"\r\n"`; the result passes `NMEA_checksum` only after the trailing
`"\r\n"` is removed — on the full emitted sentence `NMEA_checksum` returns
`false`, because it requires a NUL directly after the checksum digits. -/
theorem NMEA_append_tail_checksum (body : List ℕ)
    (h : ∀ b ∈ body, b ≠ 0 ∧ b ≠ 42) :
    NMEA_append_tail (36 :: body) =
      some (36 :: body ++ [42, hex4 (nmea_xor 0 body / 16),
                           hex4 (nmea_xor 0 body % 16), 13, 10]) ∧
    NMEA_checksum (36 :: body ++ [42, hex4 (nmea_xor 0 body / 16),
                                  hex4 (nmea_xor 0 body % 16)]) = true ∧
    NMEA_checksum (36 :: body ++ [42, hex4 (nmea_xor 0 body / 16),
                                  hex4 (nmea_xor 0 body % 16), 13, 10]) =
      false := by
  have e2 := NMEA_checksum_aux_append body
    [hex4 (nmea_xor 0 body / 16), hex4 (nmea_xor 0 body % 16)] 0 h
  have e3 := NMEA_checksum_aux_append body
    [hex4 (nmea_xor 0 body / 16), hex4 (nmea_xor 0 body % 16), 13, 10] 0 h
  refine ⟨?_, ?_, ?_⟩
  · have ht := takeWhile_no_stop body h
    simp only [NMEA_append_tail, ht]
    simp
  · simp only [NMEA_checksum, if_pos rfl]
    rw [show (36 : ℕ) :: body ++ [42, hex4 (nmea_xor 0 body / 16),
          hex4 (nmea_xor 0 body % 16)] =
        (36 : ℕ) :: (body ++ 42 :: [hex4 (nmea_xor 0 body / 16),
          hex4 (nmea_xor 0 body % 16)]) from rfl]
    simp only [e2]
    simp
  · simp only [NMEA_checksum, if_pos rfl]
    rw [show (36 : ℕ) :: body ++ [42, hex4 (nmea_xor 0 body / 16),
          hex4 (nmea_xor 0 body % 16), 13, 10] =
        (36 : ℕ) :: (body ++ 42 :: [hex4 (nmea_xor 0 body / 16),
          hex4 (nmea_xor 0 body % 16), 13, 10]) from rfl]
    simp only [e3]
    simp

/-- Witness for C8 (amended) at the concrete body `"A"`. -/
theorem NMEA_append_tail_checksum_witness :
    (∀ b ∈ [(65 : ℕ)], b ≠ 0 ∧ b ≠ 42) ∧
    (NMEA_append_tail (36 :: [65]) =
      some (36 :: [65] ++ [42, hex4 (nmea_xor 0 [65] / 16),
                           hex4 (nmea_xor 0 [65] % 16), 13, 10]) ∧
    NMEA_checksum (36 :: [65] ++ [42, hex4 (nmea_xor 0 [65] / 16),
                                  hex4 (nmea_xor 0 [65] % 16)]) = true ∧
    NMEA_checksum (36 :: [65] ++ [42, hex4 (nmea_xor 0 [65] / 16),
                                  hex4 (nmea_xor 0 [65] % 16), 13, 10]) =
      false) :=
  ⟨by decide, NMEA_append_tail_checksum [65] (by decide)⟩

/-- The C cast `(int)x` on a float: truncation toward zero. -/
def trunc_to_int (x : ℚ) : ℤ :=
  if 0 ≤ x then Int.floor x else - Int.floor (-x)

/-- Heading value computed by `format_HCHDT` (NMEA_format.cpp:387-399), in
tenths of a degree: `(int)(true_heading * 573.0f)`, then `+ 3600` when
negative.  The emitted field renders this integer with
`integer_to_ascii_1_decimal`, i.e. as `heading/10` degrees. -/
def format_HCHDT_heading (true_heading : ℚ) : ℤ :=
  let heading := trunc_to_int (true_heading * 573)
  if heading < 0 then heading + 3600 else heading

/-- Truncation toward zero stays strictly inside a symmetric integer
bound. -/
theorem trunc_to_int_bounds (x : ℚ) (n : ℕ) (h1 : -(n : ℚ) < x)
    (h2 : x < n) : -(n : ℤ) < trunc_to_int x ∧ trunc_to_int x < n := by
  unfold trunc_to_int
  split_ifs with hx
  · have hq : (0 : ℚ) < n := lt_of_le_of_lt hx h2
    have hpos : (0 : ℤ) < n := by exact_mod_cast hq
    constructor
    · have : (0 : ℤ) ≤ Int.floor x := Int.floor_nonneg.mpr hx
      omega
    · exact Int.floor_lt.mpr (by push_cast; linarith)
  · push_neg at hx
    have hq : (0 : ℚ) < n := by linarith
    have hpos : (0 : ℤ) < n := by exact_mod_cast hq
    have hfl : Int.floor (-x) < (n : ℤ) := Int.floor_lt.mpr (by push_cast; linarith)
    have hfge : (0 : ℤ) ≤ Int.floor (-x) := Int.floor_nonneg.mpr (by linarith)
    omega

/-- **C9, counterexample**: at `yaw = -0.01 rad` the emitted heading value
is exactly 3595 tenths of a degree (printed `"359.5"`), not approximately
3594.3: the cast truncates `-5.73` to `-5` *before* the `+3600` wrap, so
the emitted value misses 3594.3 by 0.7 tenths — more than half of the
field's 0.1-degree resolution. -/
theorem format_HCHDT_value_counterexample :
    format_HCHDT_heading (-1/100) = 3595 ∧
    ¬ (|(3595 : ℚ) - 35943/10| ≤ 1/2) := by
  constructor
  · norm_num [format_HCHDT_heading, trunc_to_int]
  · rw [abs_of_nonneg (by norm_num)]
    norm_num

/-- **C9, amended**: for every `true_heading` in `(-π, π]`, the heading
emitted by `format_HCHDT` — scaled by 573, truncated to an integer and
wrapped by adding 3600 when negative — lies in `[0, 3600)` tenths of a
degree (i.e. `[0, 360.0)` degrees, never negative); for `yaw = -0.01 rad`
the emitted value is 3595 tenths (359.5°), the truncation to whole tenths
happening before the wrap. -/
theorem format_HCHDT_heading_range (y : ℚ)
    (h1 : -Real.pi < (y : ℝ)) (h2 : (y : ℝ) ≤ Real.pi) :
    (0 ≤ format_HCHDT_heading y ∧ format_HCHDT_heading y < 3600) ∧
    format_HCHDT_heading (-1/100) = 3595 := by
  have hub : y < 63/20 := by
    have hy : (y : ℝ) < ((63/20 : ℚ) : ℝ) := by
      push_cast
      nlinarith [Real.pi_lt_d2]
    exact_mod_cast hy
  have hlb : -(63/20) < y := by
    have hy : ((-(63/20) : ℚ) : ℝ) < (y : ℝ) := by
      push_cast
      nlinarith [Real.pi_lt_d2]
    exact_mod_cast hy
  have hb := trunc_to_int_bounds (y * 573) 1805
    (by push_cast; linarith) (by push_cast; linarith)
  obtain ⟨hb1, hb2⟩ := hb
  constructor
  · simp only [format_HCHDT_heading]
    split_ifs with hneg <;> constructor <;> omega
  · norm_num [format_HCHDT_heading, trunc_to_int]

/-- Witness for C9 (amended) at `true_heading = 0`. -/
theorem format_HCHDT_heading_range_witness :
    ((0 : ℤ) ≤ format_HCHDT_heading 0 ∧ format_HCHDT_heading 0 < 3600) ∧
    format_HCHDT_heading (-1/100) = 3595 :=
  format_HCHDT_heading_range 0
    (by push_cast; linarith [Real.pi_pos])
    (by push_cast; linarith [Real.pi_pos])

/-- `format_integer` (NMEA_format.cpp:36-49): decimal digits of a
non-negative machine integer, recursively (quotient digits, then the last
digit). -/
def format_integer (value : ℕ) : List ℕ :=
  if value < 10 then [value + 48]
  else format_integer (value / 10) ++ format_integer (value % 10)
decreasing_by all_goals omega

/-- `integer_to_ascii_2_decimals` (NMEA_format.cpp:52-66): optional minus
sign, the digits of `|number| / 100`, a decimal point, then exactly the two
digits `|number| / 10 % 10` and `|number| % 10` (via the `HEX` table). -/
def integer_to_ascii_2_decimals (number : ℤ) : List ℕ :=
  (if number < 0 then [45] else []) ++
  format_integer (number.natAbs / 100) ++
  [46, hex4 (number.natAbs / 10 % 10), hex4 (number.natAbs % 10)]

/-- The `,R,` (pitot) field of `format_POV` (NMEA_format.cpp:343-346):
a negative pitot pressure is clamped to zero, then the value is `(int)`
truncated and rendered with two decimals. -/
def format_POV_pitot_field (pitot : ℚ) : List ℕ :=
  let pitot2 := if pitot < 0 then 0 else pitot
  integer_to_ascii_2_decimals (trunc_to_int pitot2)

/-- Every byte emitted by `format_integer` is a decimal digit. -/
theorem format_integer_digits (value : ℕ) :
    ∀ c ∈ format_integer value, 48 ≤ c ∧ c ≤ 57 := by
  induction value using Nat.strong_induction_on with
  | _ value ih =>
    intro c hc
    unfold format_integer at hc
    split_ifs at hc with h
    · simp at hc
      omega
    · rcases List.mem_append.mp hc with h1 | h2
      · exact ih (value / 10) (by omega) c h1
      · exact ih (value % 10) (by omega) c h2

/-- **C10**: `format_POV` clamps a negative pitot pressure to zero before
formatting, so the `,R,` field is never negative: for `pitot < 0` it reads
`"0.00"`, for `pitot ≥ 0` it is the two-decimal rendering of the truncated
pitot value, and in all cases no `'-'` (byte 45) occurs in the field. -/
theorem format_POV_pitot_clamped (pitot : ℚ) :
    (pitot < 0 → format_POV_pitot_field pitot = [48, 46, 48, 48]) ∧
    (0 ≤ pitot →
      format_POV_pitot_field pitot =
        integer_to_ascii_2_decimals (trunc_to_int pitot)) ∧
    45 ∉ format_POV_pitot_field pitot := by
  have hd : ∀ d : ℕ, d < 10 → hex4 d = 48 + d := fun d hdlt => if_pos hdlt
  have e0 : format_integer 0 = [48] := by
    unfold format_integer
    norm_num
  refine ⟨?_, ?_, ?_⟩
  · intro h
    simp only [format_POV_pitot_field, if_pos h]
    have et : trunc_to_int 0 = 0 := by
      simp [trunc_to_int]
    rw [et]
    simp [integer_to_ascii_2_decimals, e0, hd 0 (by omega)]
  · intro h
    simp only [format_POV_pitot_field, if_neg (not_lt.mpr h)]
  · have hge : 0 ≤ (if pitot < 0 then (0 : ℚ) else pitot) := by
      split_ifs with h
      · exact le_refl 0
      · exact not_lt.mp h
    have hn : 0 ≤ trunc_to_int (if pitot < 0 then (0 : ℚ) else pitot) := by
      unfold trunc_to_int
      rw [if_pos hge]
      exact Int.floor_nonneg.mpr hge
    intro hmem
    simp only [format_POV_pitot_field, integer_to_ascii_2_decimals,
      if_neg (not_lt.mpr hn), List.nil_append, List.mem_append,
      List.mem_cons, List.not_mem_nil, or_false] at hmem
    rcases hmem with h1 | h46 | ha | hb
    · have := format_integer_digits _ 45 h1
      omega
    · omega
    · rw [hd _ (Nat.mod_lt _ (by omega))] at ha
      omega
    · rw [hd _ (Nat.mod_lt _ (by omega))] at hb
      omega

/-- Witness for C10 at `pitot = -5` and `pitot = 7/2`. -/
theorem format_POV_pitot_clamped_witness :
    format_POV_pitot_field (-5) = [48, 46, 48, 48] ∧
    format_POV_pitot_field (7/2) =
      integer_to_ascii_2_decimals (trunc_to_int (7/2)) ∧
    45 ∉ format_POV_pitot_field (-5) :=
  ⟨(format_POV_pitot_clamped (-5)).1 (by norm_num),
   (format_POV_pitot_clamped (7/2)).2.1 (by norm_num),
   (format_POV_pitot_clamped (-5)).2.2⟩

/-! ## D-GNSS heading difference wrap (`AHRS.cpp`, `update_diff_GNSS`)

The wrap compares against the `float` constant `M_PI_F`, which is the
IEEE-754 single-precision approximation of π — exactly
`13176795 / 2²² = 3.14159274101…`, slightly *above* π.  The `SIN`/`COS` of
the roll angle used in the antenna-alignment correction are computed by a
float library outside the snapshot, so their values enter as parameters. -/

/-- The float constant `M_PI_F`, exactly. -/
def M_PI_F : ℚ := 13176795 / 4194304

/-- The two successive wrap `if`s of `update_diff_GNSS` (AHRS.cpp:221-224),
with the bound `pi_f` a parameter: subtract `2·pi_f` once when above
`pi_f`, then add `2·pi_f` once when below `-pi_f`. -/
def wrap_heading (pi_f x : ℚ) : ℚ :=
  let x1 := if x > pi_f then x - 2 * pi_f else x
  if x1 < -pi_f then x1 + 2 * pi_f else x1

/-- `heading_difference_AHRS_DGNSS` as stored by `update_diff_GNSS`
(AHRS.cpp:215-226): GNSS heading, corrected for antenna alignment using
`sin`/`cos` of the roll angle (values `sin_euler_r`, `cos_euler_r`), minus
the current estimated yaw, passed through the wrap at `M_PI_F`. -/
def heading_difference_update (GNSS_heading euler_y
    antenna_DOWN_correction antenna_RIGHT_correction
    sin_euler_r cos_euler_r : ℚ) : ℚ :=
  wrap_heading M_PI_F (GNSS_heading
    + antenna_DOWN_correction * sin_euler_r
    - antenna_RIGHT_correction * cos_euler_r
    - euler_y)

/-- **C5, counterexample**: the stored heading difference does not lie in
`(-π, π]` for every input.  A raw difference of exactly `-M_PI_F` is left
at `-M_PI_F` (the second `if` uses strict `<`), which is strictly below
`-π` because the float constant exceeds π; and a raw difference of
`4·M_PI_F` is reduced only once, to `2·M_PI_F` — the single-pass wrap
cannot bound arbitrary inputs. -/
theorem heading_difference_interval_counterexample :
    heading_difference_update (-M_PI_F) 0 0 0 0 0 = -M_PI_F ∧
    ((-M_PI_F : ℚ) : ℝ) ∉ Set.Ioc (-Real.pi) Real.pi ∧
    heading_difference_update (4 * M_PI_F) 0 0 0 0 0 = 2 * M_PI_F ∧
    ((2 * M_PI_F : ℚ) : ℝ) ∉ Set.Ioc (-Real.pi) Real.pi := by
  have hpigt : Real.pi < ((M_PI_F : ℚ) : ℝ) := by
    have h1 := Real.pi_lt_d20
    have h2 : (3.14159265358979323847 : ℝ) < ((M_PI_F : ℚ) : ℝ) := by
      rw [show ((M_PI_F : ℚ) : ℝ) = (13176795 : ℝ) / 4194304 by
        norm_num [M_PI_F]]
      norm_num
    linarith
  have hpipos := Real.pi_pos
  refine ⟨?_, ?_, ?_, ?_⟩
  · norm_num [heading_difference_update, wrap_heading, M_PI_F]
  · simp only [Set.mem_Ioc, not_and_or, not_lt, not_le]
    left
    push_cast
    linarith
  · norm_num [heading_difference_update, wrap_heading, M_PI_F]
  · simp only [Set.mem_Ioc, not_and_or, not_lt, not_le]
    right
    push_cast
    linarith

/-- **C5, amended**: whenever the raw corrected heading difference lies in
`[-3·M_PI_F, 3·M_PI_F]` the stored `heading_difference_AHRS_DGNSS` lies in
the closed interval `[-M_PI_F, M_PI_F]` (a raw difference of exactly
`-M_PI_F` stays at `-M_PI_F`); a raw difference above `M_PI_F` is mapped to
`raw − 2·M_PI_F` — in particular `M_PI_F + ε ↦ -M_PI_F + ε` — and one below
`-M_PI_F` to `raw + 2·M_PI_F`, so no unbounded heading-correction term can
arise from that range.  Outside `±3·M_PI_F` the single-pass wrap gives no
bound. -/
theorem heading_difference_wrapped (GNSS_heading euler_y
    antenna_DOWN_correction antenna_RIGHT_correction
    sin_euler_r cos_euler_r : ℚ)
    (hlo : -(3 * M_PI_F) ≤ GNSS_heading
      + antenna_DOWN_correction * sin_euler_r
      - antenna_RIGHT_correction * cos_euler_r - euler_y)
    (hhi : GNSS_heading + antenna_DOWN_correction * sin_euler_r
      - antenna_RIGHT_correction * cos_euler_r - euler_y ≤ 3 * M_PI_F) :
    (-M_PI_F ≤ heading_difference_update GNSS_heading euler_y
        antenna_DOWN_correction antenna_RIGHT_correction
        sin_euler_r cos_euler_r ∧
     heading_difference_update GNSS_heading euler_y
        antenna_DOWN_correction antenna_RIGHT_correction
        sin_euler_r cos_euler_r ≤ M_PI_F) ∧
    (M_PI_F < GNSS_heading + antenna_DOWN_correction * sin_euler_r
        - antenna_RIGHT_correction * cos_euler_r - euler_y →
      heading_difference_update GNSS_heading euler_y
        antenna_DOWN_correction antenna_RIGHT_correction
        sin_euler_r cos_euler_r =
      (GNSS_heading + antenna_DOWN_correction * sin_euler_r
        - antenna_RIGHT_correction * cos_euler_r - euler_y) - 2 * M_PI_F) ∧
    (GNSS_heading + antenna_DOWN_correction * sin_euler_r
        - antenna_RIGHT_correction * cos_euler_r - euler_y < -M_PI_F →
      heading_difference_update GNSS_heading euler_y
        antenna_DOWN_correction antenna_RIGHT_correction
        sin_euler_r cos_euler_r =
      (GNSS_heading + antenna_DOWN_correction * sin_euler_r
        - antenna_RIGHT_correction * cos_euler_r - euler_y) + 2 * M_PI_F) := by
  have hpi : (0 : ℚ) < M_PI_F := by norm_num [M_PI_F]
  simp only [heading_difference_update, wrap_heading]
  split_ifs with h1 h2 h3 <;>
    refine ⟨⟨by linarith, by linarith⟩, fun hgt => by linarith, fun hlt => by
      linarith⟩

/-- Witness for C5 (amended) at a raw difference of `2·M_PI_F`. -/
theorem heading_difference_wrapped_witness :
    ((-M_PI_F ≤ heading_difference_update (2 * M_PI_F) 0 0 0 0 0 ∧
      heading_difference_update (2 * M_PI_F) 0 0 0 0 0 ≤ M_PI_F) ∧
     (M_PI_F < 2 * M_PI_F + 0 * 0 - 0 * 0 - 0 →
       heading_difference_update (2 * M_PI_F) 0 0 0 0 0 =
         (2 * M_PI_F + 0 * 0 - 0 * 0 - 0) - 2 * M_PI_F) ∧
     (2 * M_PI_F + 0 * 0 - 0 * 0 - 0 < -M_PI_F →
       heading_difference_update (2 * M_PI_F) 0 0 0 0 0 =
         (2 * M_PI_F + 0 * 0 - 0 * 0 - 0) + 2 * M_PI_F)) :=
  heading_difference_wrapped (2 * M_PI_F) 0 0 0 0 0
    (by norm_num [M_PI_F]) (by norm_num [M_PI_F])

/-! ## Attitude quaternion normalization (`AHRS.cpp`, `update_attitude`)

The quaternion class lives in a header outside the repository snapshot;
its `rotate` and `normalize` members are modelled from spec §4.2 over the
reals.  `AHRS_type::update_attitude` (AHRS.cpp:171-175) — the shared tail
of all three fusion modes `update_diff_GNSS` (line 256), `update_compass`
(line 333) and `update_ACC_only` (line 377) — first rotates the attitude
quaternion by the (corrected) gyro rates times `Ts/2` and then normalizes
it. -/

/-- A quaternion of (embedded) floats. -/
structure Quatf where
  q0 : ℝ
  q1 : ℝ
  q2 : ℝ
  q3 : ℝ

/-- Squared norm of a quaternion. -/
noncomputable def Quatf.normSq (q : Quatf) : ℝ :=
  q.q0 ^ 2 + q.q1 ^ 2 + q.q2 ^ 2 + q.q3 ^ 2

/-- Norm of a quaternion. -/
noncomputable def Quatf.norm (q : Quatf) : ℝ := Real.sqrt q.normSq

/-- Hamilton product. -/
noncomputable def Quatf.mul (a b : Quatf) : Quatf :=
  ⟨a.q0 * b.q0 - a.q1 * b.q1 - a.q2 * b.q2 - a.q3 * b.q3,
   a.q0 * b.q1 + a.q1 * b.q0 + a.q2 * b.q3 - a.q3 * b.q2,
   a.q0 * b.q2 - a.q1 * b.q3 + a.q2 * b.q0 + a.q3 * b.q1,
   a.q0 * b.q3 + a.q1 * b.q2 - a.q2 * b.q1 + a.q3 * b.q0⟩

/-- Modelled from the spec: `attitude.rotate(p, q, r)` — the quaternion
class is outside the snapshot; spec §4.2 step 2 describes the predict step
as the small-angle rotation `q ← q ⊗ (1, ω·Ts/2)`. -/
noncomputable def Quatf.rotate (q : Quatf) (dp dq dr : ℝ) : Quatf :=
  q.mul ⟨1, dp, dq, dr⟩

/-- Modelled from the spec: `attitude.normalize()` — scale by the
reciprocal norm (spec §3: "unit 4-vector … normalize step"). -/
noncomputable def Quatf.normalize (q : Quatf) : Quatf :=
  ⟨1 / q.norm * q.q0, 1 / q.norm * q.q1, 1 / q.norm * q.q2,
   1 / q.norm * q.q3⟩

/-- Quaternion part of `AHRS_type::update_attitude` (AHRS.cpp:171-175):
rotate by `gyro.e[axis] * Ts_div_2` on each axis, then normalize. -/
noncomputable def update_attitude_quat (attitude : Quatf)
    (gyro_roll gyro_nick gyro_yaw Ts_div_2 : ℝ) : Quatf :=
  (attitude.rotate (gyro_roll * Ts_div_2) (gyro_nick * Ts_div_2)
    (gyro_yaw * Ts_div_2)).normalize

/-- The squared norm is multiplicative (Euler's four-square identity). -/
theorem Quatf_normSq_mul (a b : Quatf) :
    (a.mul b).normSq = a.normSq * b.normSq := by
  simp only [Quatf.mul, Quatf.normSq]
  ring

/-- **C1**: after any fusion-mode AHRS update — each of which ends in
`update_attitude`, which rotates and then normalizes — the attitude
quaternion is a unit quaternion, `| ‖q‖ − 1 | < 1e-6` (in the exact-real
embedding the norm is exactly 1), provided the quaternion was non-zero
before the tick's rotate step. -/
theorem update_attitude_unit_quaternion (attitude : Quatf)
    (gyro_roll gyro_nick gyro_yaw Ts_div_2 : ℝ)
    (h : 0 < attitude.normSq) :
    |Quatf.norm (update_attitude_quat attitude gyro_roll gyro_nick gyro_yaw
        Ts_div_2) - 1| < 1 / 1000000 := by
  have hrotSq : 0 < (attitude.rotate (gyro_roll * Ts_div_2)
      (gyro_nick * Ts_div_2) (gyro_yaw * Ts_div_2)).normSq := by
    rw [Quatf.rotate, Quatf_normSq_mul]
    have hd : 0 < Quatf.normSq ⟨1, gyro_roll * Ts_div_2,
        gyro_nick * Ts_div_2, gyro_yaw * Ts_div_2⟩ := by
      simp only [Quatf.normSq]
      positivity
    positivity
  set p := attitude.rotate (gyro_roll * Ts_div_2) (gyro_nick * Ts_div_2)
    (gyro_yaw * Ts_div_2) with hp
  have h1 : p.normalize.normSq = (1 / Real.sqrt p.normSq) ^ 2 * p.normSq := by
    simp only [Quatf.normalize, Quatf.normSq, Quatf.norm]
    ring
  have h2 : p.normalize.normSq = 1 := by
    rw [h1, div_pow, one_pow, Real.sq_sqrt hrotSq.le,
      one_div, inv_mul_cancel₀ (ne_of_gt hrotSq)]
  have h3 : Quatf.norm p.normalize = 1 := by
    rw [Quatf.norm, h2, Real.sqrt_one]
  have h4 : update_attitude_quat attitude gyro_roll gyro_nick gyro_yaw
      Ts_div_2 = p.normalize := rfl
  rw [h4, h3]
  norm_num

/-- Witness for C1 at the identity quaternion and zero rates. -/
theorem update_attitude_unit_quaternion_witness :
    0 < Quatf.normSq ⟨1, 0, 0, 0⟩ ∧
    |Quatf.norm (update_attitude_quat ⟨1, 0, 0, 0⟩ 0 0 0 (1 / 200)) - 1| <
      1 / 1000000 :=
  ⟨by norm_num [Quatf.normSq],
   update_attitude_unit_quaternion ⟨1, 0, 0, 0⟩ 0 0 0 (1 / 200)
     (by norm_num [Quatf.normSq])⟩
